import Mathlib

/-!
# Verification of the `cmd-builder` library (Go, package `builder`)

A shallow embedding of `src/cmd.go`: the `CmdBuilder` / `CmdFactory` pair
that fluently configures and executes `exec.Cmd` process specifications.

Ambient platform state is passed explicitly:
* `environ` stands for `os.Environ()`;
* `goos` for `runtime.GOOS`;
* `shellEnv` for `os.Getenv("SHELL")`;
* an `ExecOutcome` value stands for what the operating system does when the
  configured process is launched (creation failure, or completion with a raw
  stdout byte string and an exit code).

`io.Reader` / `io.Writer` handles are modelled as an inductive identity type:
the library never reads or writes through them itself except via
`io.MultiWriter`, which is modelled by the `GoWriter.multi` constructor, and
`bytes.Buffer`, modelled by `GoWriter.buffer`.
-/

/-- Identity of an `io.Writer` handle. `multi` is `io.MultiWriter(w1, w2)`;
`buffer` is a `bytes.Buffer` used as a writer. -/
inductive GoWriter where
  | osStderr : GoWriter
  | osStdout : GoWriter
  | custom : Nat → GoWriter
  | buffer : Nat → GoWriter
  | multi : GoWriter → GoWriter → GoWriter
deriving DecidableEq, Repr

/-- Identity of an `io.Reader` handle. -/
inductive GoReader where
  | osStdin : GoReader
  | custom : Nat → GoReader
deriving DecidableEq, Repr

/-- The leaf writes performed when the byte string `s` is written to a writer:
`io.MultiWriter` fans each write out to both of its underlying writers. -/
def GoWriter.writes : GoWriter → String → List (GoWriter × String)
  | .multi a b, s => a.writes s ++ b.writes s
  | w, s => [(w, s)]

/-- The fields of Go's `exec.Cmd` that `cmd.go` reads or writes.
`exec.Command(name, args...)` sets `Path` to `name` and `Args` to
`name :: args`; `nil` stream handles are `none`. -/
structure ExecCmd where
  Path : String
  Args : List String
  Dir : String
  Stdin : Option GoReader
  Stdout : Option GoWriter
  Stderr : Option GoWriter
  Env : List String
deriving DecidableEq, Repr

/-- `CmdBuilder` wraps a single `*exec.Cmd`. -/
structure CmdBuilder where
  cmd : ExecCmd
deriving DecidableEq, Repr

/-- `CmdFactoryOptions`: the configurable defaults a factory stamps onto the
builders it produces. A `nil` stream handle is `none`; a `nil` or empty env
slice is `[]`. -/
structure CmdFactoryOptions where
  Stdin : Option GoReader
  Stdout : Option GoWriter
  Stderr : Option GoWriter
  Dir : String
  Env : List String
deriving DecidableEq, Repr

/-- `CmdFactory` holds one options bundle. -/
structure CmdFactory where
  Options : CmdFactoryOptions
deriving DecidableEq, Repr

/-- `NewFactory(options)` stores the options bundle verbatim. -/
def NewFactory (options : CmdFactoryOptions) : CmdFactory :=
  { Options := options }

/-- `Cmd(name, args...)`: builds the `exec.Cmd` via `exec.Command`, then sets
`cmd.Stderr = os.Stderr` and `cmd.Env = os.Environ()`. `environ` is the
calling process's environment `os.Environ()`. -/
def Cmd (environ : List String) (name : String) (args : List String) : CmdBuilder :=
  { cmd :=
    { Path := name
      Args := name :: args
      Dir := ""
      Stdin := none
      Stdout := none
      Stderr := some GoWriter.osStderr
      Env := environ } }

/-- Alias for the free constructor `Cmd`, usable inside the `CmdFactory`
namespace where the bare name `Cmd` would refer to the factory method. -/
def freeCmd : List String → String → List String → CmdBuilder := Cmd

/-- `CmdFactory.Cmd(name, args...)`: builds the default builder with the free
`Cmd`, then overrides stdin/stdout/stderr when the factory option is non-nil,
dir when it is a non-empty string, and appends the factory env entries when at
least one is present. -/
def CmdFactory.Cmd (factory : CmdFactory) (environ : List String)
    (name : String) (args : List String) : CmdBuilder :=
  let builder := freeCmd environ name args
  let builder := if factory.Options.Stdin.isSome then
      { builder with cmd := { builder.cmd with Stdin := factory.Options.Stdin } }
    else builder
  let builder := if factory.Options.Stdout.isSome then
      { builder with cmd := { builder.cmd with Stdout := factory.Options.Stdout } }
    else builder
  let builder := if factory.Options.Stderr.isSome then
      { builder with cmd := { builder.cmd with Stderr := factory.Options.Stderr } }
    else builder
  let builder := if factory.Options.Dir ≠ "" then
      { builder with cmd := { builder.cmd with Dir := factory.Options.Dir } }
    else builder
  let builder := if factory.Options.Env.length > 0 then
      { builder with cmd := { builder.cmd with Env := builder.cmd.Env ++ factory.Options.Env } }
    else builder
  builder

/-- The free `Shell(args)`: passes the arg string to the OS shell chosen by
`runtime.GOOS` (`goos`); `shellEnv` is `os.Getenv("SHELL")`. -/
def Shell (goos : String) (shellEnv : String) (environ : List String)
    (args : String) : CmdBuilder :=
  if goos = "linux" then Cmd environ "bash" ["-c", args]
  else if goos = "darwin" then Cmd environ "zsh" ["-c", args]
  else if goos = "windows" then Cmd environ "powershell" ["-Command", args]
  else Cmd environ shellEnv ["-c", args]

/-- `CmdFactory.Shell(args)`: the same OS-based selection, routed through the
factory's `Cmd`. -/
def CmdFactory.Shell (factory : CmdFactory) (goos : String) (shellEnv : String)
    (environ : List String) (args : String) : CmdBuilder :=
  if goos = "linux" then factory.Cmd environ "bash" ["-c", args]
  else if goos = "darwin" then factory.Cmd environ "zsh" ["-c", args]
  else if goos = "windows" then factory.Cmd environ "powershell" ["-Command", args]
  else factory.Cmd environ shellEnv ["-c", args]

/-- `CmdBuilder.Dir(dir)`: sets the working directory. -/
def CmdBuilder.Dir (cmdBuilder : CmdBuilder) (dir : String) : CmdBuilder :=
  { cmdBuilder with cmd := { cmdBuilder.cmd with Dir := dir } }

/-- `CmdBuilder.Stdout(stdout)`: sets the command's stdout writer. -/
def CmdBuilder.Stdout (cmdBuilder : CmdBuilder) (stdout : Option GoWriter) : CmdBuilder :=
  { cmdBuilder with cmd := { cmdBuilder.cmd with Stdout := stdout } }

/-- `CmdBuilder.Stderr(stderr)`: sets the command's stderr writer. -/
def CmdBuilder.Stderr (cmdBuilder : CmdBuilder) (stderr : Option GoWriter) : CmdBuilder :=
  { cmdBuilder with cmd := { cmdBuilder.cmd with Stderr := stderr } }

/-- `CmdBuilder.Stdin(stdin)`: sets the command's stdin reader. -/
def CmdBuilder.Stdin (cmdBuilder : CmdBuilder) (stdin : Option GoReader) : CmdBuilder :=
  { cmdBuilder with cmd := { cmdBuilder.cmd with Stdin := stdin } }

/-- `CmdBuilder.Interactive()`: points stderr, stdin and stdout at the calling
process's own streams. -/
def CmdBuilder.Interactive (cmdBuilder : CmdBuilder) : CmdBuilder :=
  { cmdBuilder with cmd :=
    { cmdBuilder.cmd with
      Stderr := some GoWriter.osStderr
      Stdin := some GoReader.osStdin
      Stdout := some GoWriter.osStdout } }

/-- `CmdBuilder.Env(vars...)`: appends the entries to the environment list. -/
def CmdBuilder.Env (cmdBuilder : CmdBuilder) (vars : List String) : CmdBuilder :=
  { cmdBuilder with cmd := { cmdBuilder.cmd with Env := cmdBuilder.cmd.Env ++ vars } }

/-- `CmdBuilder.Build()`: returns the built `*exec.Cmd`. -/
def CmdBuilder.Build (cmdBuilder : CmdBuilder) : ExecCmd :=
  cmdBuilder.cmd

/-- A Go `error` value as surfaced by `os/exec`: either process creation
failed (e.g. `exec.ErrNotFound`, permission denied), or the process ran and
exited with a non-zero status (`*exec.ExitError`). -/
inductive GoError where
  | creationError : String → GoError
  | exitError : Nat → GoError
deriving DecidableEq, Repr

/-- What the operating system does when the configured process is launched:
creation fails outright, or the process completes having produced the raw
byte string `stdout` on its standard output and exited with `exitCode`. -/
inductive ExecOutcome where
  | createFail : String → ExecOutcome
  | completed : (stdout : String) → (exitCode : Nat) → ExecOutcome
deriving DecidableEq, Repr

/-- Modelled from the spec (section 6, the `os/exec` external interface):
`exec.Cmd.Start` returns an error exactly when the process could not be
created; it does not wait, so a later non-zero exit is not reported. -/
def execStart : ExecOutcome → Option GoError
  | .createFail msg => some (.creationError msg)
  | .completed _ _ => none

/-- Modelled from the spec (section 6, the `os/exec` external interface):
`exec.Cmd.Run` returns an error when the process could not be created or
when it exited with a non-zero status. -/
def execRun : ExecOutcome → Option GoError
  | .createFail msg => some (.creationError msg)
  | .completed _ code => if code = 0 then none else some (.exitError code)

/-- Modelled from the spec (section 6, the `os/exec` external interface):
`exec.Cmd.Output` runs the process capturing stdout into an internal buffer
and returns the captured bytes together with the error `Run` would return. -/
def execOutput (o : ExecOutcome) : String × Option GoError :=
  match o with
  | .createFail msg => ("", some (.creationError msg))
  | .completed out code => (out, if code = 0 then none else some (.exitError code))

/-- Go `unicode.IsSpace` (the whitespace set `strings.TrimSpace` trims):
ASCII `'\t'`, `'\n'`, `'\v'`, `'\f'`, `'\r'`, `' '`, Latin-1 `U+0085`,
`U+00A0`, and the Unicode `White_Space` code points. -/
def goIsSpace (c : Char) : Bool :=
  c = ' ' || c = '\t' || c = '\n' || c.val = 11 || c.val = 12 || c = '\r' ||
  c.val = 0x85 || c.val = 0xA0 ||
  c.val = 0x1680 || (0x2000 ≤ c.val && c.val ≤ 0x200A) ||
  c.val = 0x2028 || c.val = 0x2029 || c.val = 0x202F ||
  c.val = 0x205F || c.val = 0x3000

/-- Go `strings.TrimSpace`: removes leading and trailing whitespace. -/
def goTrimSpace (s : String) : String :=
  String.mk (((s.toList.dropWhile goIsSpace).reverse.dropWhile goIsSpace).reverse)

/-- Go `strings.ReplaceAll(s, "\r\n", "\n")` on the character list: replaces
every non-overlapping `"\r\n"` pair, scanning left to right. -/
def replaceCRLF : List Char → List Char
  | [] => []
  | '\r' :: '\n' :: rest => '\n' :: replaceCRLF rest
  | c :: rest => c :: replaceCRLF rest

/-- Go `strings.Split(s, "\n")` on the character list: the subsequences
between occurrences of `'\n'`; always at least one element. -/
def splitOnNewline : List Char → List (List Char)
  | [] => [[]]
  | c :: rest =>
    if c = '\n' then [] :: splitOnNewline rest
    else
      match splitOnNewline rest with
      | [] => [[c]]
      | h :: t => (c :: h) :: t

/-- `strings.Split(strings.ReplaceAll(s, "\r\n", "\n"), "\n")`. -/
def goSplitLines (s : String) : List String :=
  (splitOnNewline (replaceCRLF s.toList)).map String.mk

/-- The result of `CmdBuilder.Output`: the returned string, the returned
error, and the writes the execution performed on the caller-visible writers
(through the `io.MultiWriter` when a custom stdout sink was assigned). -/
structure OutputResult where
  out : String
  err : Option GoError
  sinkWrites : List (GoWriter × String)
deriving DecidableEq, Repr

/-- `CmdBuilder.Start()`: delegates to `exec.Cmd.Start`. -/
def CmdBuilder.Start (cmdBuilder : CmdBuilder) (o : ExecOutcome) : Option GoError :=
  execStart o

/-- `CmdBuilder.Run()`: delegates to `exec.Cmd.Run`. -/
def CmdBuilder.Run (cmdBuilder : CmdBuilder) (o : ExecOutcome) : Option GoError :=
  execRun o

/-- `CmdBuilder.Output()`: if `cmd.Stdout` is already set, replaces it by
`io.MultiWriter(cmd.Stdout, &outBuf)` and calls `cmd.Run()` (so the raw
stdout reaches both the assigned sink and the buffer), returning the trimmed
buffer contents; otherwise calls `cmd.Output()`. Either way, on error the
empty string is returned with the error, and on success the captured output
with leading/trailing whitespace trimmed. -/
def CmdBuilder.Output (cmdBuilder : CmdBuilder) (o : ExecOutcome) : OutputResult :=
  match cmdBuilder.cmd.Stdout with
  | some w =>
    let mw := GoWriter.multi w (GoWriter.buffer 0)
    let ws := match o with
      | .completed s _ => mw.writes s
      | .createFail _ => []
    match execRun o with
    | some e => { out := "", err := some e, sinkWrites := ws }
    | none =>
      let captured := match o with
        | .completed s _ => s
        | .createFail _ => ""
      { out := goTrimSpace captured, err := none, sinkWrites := ws }
  | none =>
    let (output, err) := execOutput o
    match err with
    | some e => { out := "", err := some e, sinkWrites := [] }
    | none => { out := goTrimSpace output, err := none, sinkWrites := [] }

/-- `CmdBuilder.Lines()`: calls `Output()`, propagates its error unchanged
(with a `nil` line slice, modelled as `none`), and otherwise splits the
output on newlines after normalizing `"\r\n"` to `"\n"`. -/
def CmdBuilder.Lines (cmdBuilder : CmdBuilder) (o : ExecOutcome) :
    Option (List String) × Option GoError :=
  let r := cmdBuilder.Output o
  match r.err with
  | some e => (none, some e)
  | none => (some (goSplitLines r.out), none)

/-!
## Heap model for factory / builder non-interference

Each `*exec.Cmd` lives in its own heap cell; the factory's options bundle is
only ever read. A `World` is the factory together with the cells of the
builders it has produced; `createCmd` runs `CmdFactory.Cmd`, `configure`
runs one chained configuration method on one builder cell.
-/

/-- One chained configuration call on a builder. -/
inductive BuilderOp where
  | dirOp : String → BuilderOp
  | stdoutOp : Option GoWriter → BuilderOp
  | stderrOp : Option GoWriter → BuilderOp
  | stdinOp : Option GoReader → BuilderOp
  | interactiveOp : BuilderOp
  | envOp : List String → BuilderOp
deriving DecidableEq, Repr

/-- The effect of one chained configuration call on the underlying
`exec.Cmd`, given by the corresponding `CmdBuilder` method. -/
def applyOp (c : ExecCmd) : BuilderOp → ExecCmd
  | .dirOp d => ((CmdBuilder.mk c).Dir d).cmd
  | .stdoutOp w => ((CmdBuilder.mk c).Stdout w).cmd
  | .stderrOp w => ((CmdBuilder.mk c).Stderr w).cmd
  | .stdinOp r => ((CmdBuilder.mk c).Stdin r).cmd
  | .interactiveOp => (CmdBuilder.mk c).Interactive.cmd
  | .envOp vars => ((CmdBuilder.mk c).Env vars).cmd

/-- Apply `f` to the element at index `i`, leaving every other cell alone. -/
def modifyAt {α : Type} : Nat → (α → α) → List α → List α
  | _, _, [] => []
  | 0, f, x :: t => f x :: t
  | n + 1, f, x :: t => x :: modifyAt n f t

/-- The factory together with the builder cells it has produced. -/
structure World where
  factory : CmdFactory
  builders : List ExecCmd
deriving DecidableEq, Repr

/-- Produce a new builder through the factory's `Cmd`. -/
def World.createCmd (w : World) (environ : List String) (name : String)
    (args : List String) : World :=
  { w with builders := w.builders ++ [(w.factory.Cmd environ name args).cmd] }

/-- Run one chained configuration method on builder cell `i`. -/
def World.configure (w : World) (i : Nat) (op : BuilderOp) : World :=
  { w with builders := modifyAt i (fun c => applyOp c op) w.builders }

lemma writes_multi (a b : GoWriter) (s : String) :
    (GoWriter.multi a b).writes s = a.writes s ++ b.writes s := rfl

lemma writes_buffer (n : Nat) (s : String) :
    (GoWriter.buffer n).writes s = [(GoWriter.buffer n, s)] := rfl

lemma splitOnNewline_ne_nil (l : List Char) : splitOnNewline l ≠ [] := by
  cases l with
  | nil => simp [splitOnNewline]
  | cons c rest =>
    simp only [splitOnNewline]
    by_cases hc : c = '\n'
    · simp [hc]
    · simp only [hc, if_false]
      cases splitOnNewline rest <;> simp

lemma goSplitLines_ne_nil (s : String) : goSplitLines s ≠ [] := by
  simp [goSplitLines]
  exact splitOnNewline_ne_nil _

lemma output_completed_zero (b : CmdBuilder) (s : String) :
    b.Output (.completed s 0) =
      { out := goTrimSpace s, err := none,
        sinkWrites := match b.cmd.Stdout with
          | some w => (GoWriter.multi w (GoWriter.buffer 0)).writes s
          | none => [] } := by
  cases h : b.cmd.Stdout <;> simp [CmdBuilder.Output, h, execRun, execOutput]

lemma goTrimSpace_of_allspace (s : String) (h : ∀ ch ∈ s.toList, goIsSpace ch) :
    goTrimSpace s = "" := by
  have h1 : List.dropWhile goIsSpace s.data = [] :=
    List.dropWhile_eq_nil_iff.2 (by simpa [String.toList] using h)
  simp [goTrimSpace, String.toList, h1]

lemma modifyAt_get_ne {α : Type} (f : α → α) (i j : Nat) (l : List α) (h : j ≠ i) :
    (modifyAt i f l).get? j = l.get? j := by
  induction l generalizing i j with
  | nil => simp [modifyAt]
  | cons x t ih =>
    cases i with
    | zero =>
      cases j with
      | zero => exact absurd rfl h
      | succ j => simp [modifyAt]
    | succ i =>
      cases j with
      | zero => simp [modifyAt]
      | succ j => simpa [modifyAt] using ih i j (fun hh => h (by simp [hh]))

/-- C4: `Cmd(name, args...)` defaults stderr to the calling process's error
stream and the environment to the calling process's full environment, and
leaves stdin and stdout unset (`nil`, null-device semantics), for every name
and argument list. -/
theorem cmd_default_streams_env (environ : List String) (name : String)
    (args : List String) :
    (Cmd environ name args).cmd.Stderr = some GoWriter.osStderr ∧
    (Cmd environ name args).cmd.Env = environ ∧
    (Cmd environ name args).cmd.Stdin = none ∧
    (Cmd environ name args).cmd.Stdout = none :=
  ⟨rfl, rfl, rfl, rfl⟩

/-- C5: `Env` is cumulative and order-preserving: appended entries extend the
existing list without dropping or replacing anything, and in particular
`Env("A=1")` then `Env("B=2")` yields the base environment followed by
`A=1` and `B=2` in that order. -/
theorem env_append_cumulative (b : CmdBuilder) (vs1 vs2 : List String) :
    ((b.Env vs1).Env vs2).cmd.Env = b.cmd.Env ++ (vs1 ++ vs2) ∧
    ((b.Env ["A=1"]).Env ["B=2"]).cmd.Env = b.cmd.Env ++ ["A=1", "B=2"] := by
  constructor <;> simp [CmdBuilder.Env]

/-- C1 counterexample: on raw standard output `"a\r\nb\n"`, `Lines()` does
NOT return `["a", "b", ""]`: `Output()` trims the trailing line terminator
before `Lines()` splits, so no trailing empty element survives. -/
theorem lines_crlf_trailing_empty_refuted :
    ((Cmd [] "c" []).Lines (.completed "a\r\nb\n" 0)).1 ≠ some ["a", "b", ""] := by
  decide

/-- C1 amended: on raw standard output `"a\r\nb\n"`, `Lines()` returns
`["a", "b"]`: the output is whitespace-trimmed first (removing the final
`"\n"`), then the remaining CRLF pair is normalized to LF and the string is
split on LF. -/
theorem lines_crlf_trim_then_split :
    (Cmd [] "c" []).Lines (.completed "a\r\nb\n" 0) = (some ["a", "b"], none) := by
  decide

/-- C2: `Output()` returns the captured stdout trimmed of leading and
trailing whitespace (raw `"hello\n"` yields `"hello"`); and when a custom
stdout sink was assigned beforehand, the raw output is still written to that
sink through the fan-out writer while the same trimmed string is returned
with no error, instead of failing with a "stdout already set" condition. -/
theorem output_trims_and_dual_writes (environ : List String) (name : String)
    (args : List String) (w : GoWriter) (s : String) :
    (Cmd environ name args).Output (.completed s 0) =
      { out := goTrimSpace s, err := none, sinkWrites := [] } ∧
    ((Cmd environ name args).Stdout (some w)).Output (.completed s 0) =
      { out := goTrimSpace s, err := none,
        sinkWrites := w.writes s ++ [(GoWriter.buffer 0, s)] } ∧
    ((Cmd environ name args).Output (.completed "hello\n" 0)).out = "hello" := by
  refine ⟨?_, ?_, ?_⟩
  · simp [Cmd, CmdBuilder.Output, execRun, execOutput]
  · simp [Cmd, CmdBuilder.Stdout, CmdBuilder.Output, execRun, writes_multi, writes_buffer]
  · simp [Cmd, CmdBuilder.Output, execRun, execOutput]
    decide

lemma goSplitLines_empty : goSplitLines "" = [""] := by decide

/-- C3: `Factory.Cmd(name, args...)` builds the default builder and then
overrides stdin/stdout/stderr only when the factory option is non-nil, dir
only when the factory's dir is non-empty, and appends (never replaces) the
factory env entries only when at least one is present; a factory built from
all-empty options produces exactly the plain `Cmd(name, args...)` builder. -/
theorem factory_cmd_conditional_overrides (opts : CmdFactoryOptions)
    (environ : List String) (name : String) (args : List String) :
    ((NewFactory opts).Cmd environ name args).cmd.Stdin
      = (if opts.Stdin.isSome then opts.Stdin else (Cmd environ name args).cmd.Stdin) ∧
    ((NewFactory opts).Cmd environ name args).cmd.Stdout
      = (if opts.Stdout.isSome then opts.Stdout else (Cmd environ name args).cmd.Stdout) ∧
    ((NewFactory opts).Cmd environ name args).cmd.Stderr
      = (if opts.Stderr.isSome then opts.Stderr else (Cmd environ name args).cmd.Stderr) ∧
    ((NewFactory opts).Cmd environ name args).cmd.Dir
      = (if opts.Dir ≠ "" then opts.Dir else (Cmd environ name args).cmd.Dir) ∧
    ((NewFactory opts).Cmd environ name args).cmd.Env
      = (if opts.Env.length > 0 then (Cmd environ name args).cmd.Env ++ opts.Env
         else (Cmd environ name args).cmd.Env) ∧
    ((NewFactory opts).Cmd environ name args).cmd.Path = (Cmd environ name args).cmd.Path ∧
    ((NewFactory opts).Cmd environ name args).cmd.Args = (Cmd environ name args).cmd.Args ∧
    (NewFactory ⟨none, none, none, "", []⟩).Cmd environ name args = Cmd environ name args := by
  obtain ⟨si, so, se, d, e⟩ := opts
  cases si <;> cases so <;> cases se <;> cases e <;> by_cases hd : d = "" <;>
    simp [CmdFactory.Cmd, NewFactory, freeCmd, Cmd, hd]

/-- C6: `Shell(argString)` selects the shell purely from the host OS: `bash -c`
on Linux, `zsh -c` on macOS, `powershell -Command` on Windows, `$SHELL -c`
anywhere else; and the factory's `Shell` performs the identical selection but
routes through the factory's `Cmd`. -/
theorem shell_os_selection (goos shellEnv : String) (environ : List String)
    (a : String) (f : CmdFactory) :
    Shell "linux" shellEnv environ a = Cmd environ "bash" ["-c", a] ∧
    Shell "darwin" shellEnv environ a = Cmd environ "zsh" ["-c", a] ∧
    Shell "windows" shellEnv environ a = Cmd environ "powershell" ["-Command", a] ∧
    (goos ≠ "linux" → goos ≠ "darwin" → goos ≠ "windows" →
      Shell goos shellEnv environ a = Cmd environ shellEnv ["-c", a]) ∧
    f.Shell "linux" shellEnv environ a = f.Cmd environ "bash" ["-c", a] ∧
    f.Shell "darwin" shellEnv environ a = f.Cmd environ "zsh" ["-c", a] ∧
    f.Shell "windows" shellEnv environ a = f.Cmd environ "powershell" ["-Command", a] ∧
    (goos ≠ "linux" → goos ≠ "darwin" → goos ≠ "windows" →
      f.Shell goos shellEnv environ a = f.Cmd environ shellEnv ["-c", a]) := by
  refine ⟨by simp [Shell], by simp [Shell], by simp [Shell], ?_,
    by simp [CmdFactory.Shell], by simp [CmdFactory.Shell], by simp [CmdFactory.Shell], ?_⟩
  · intro h1 h2 h3
    simp [Shell, h1, h2, h3]
  · intro h1 h2 h3
    simp [CmdFactory.Shell, h1, h2, h3]

/-- C6 witness: on a host that is none of linux/darwin/windows, both `Shell`
entry points fall back to the `SHELL` environment variable with `-c`. -/
theorem shell_os_selection_witness :
    Shell "plan9" "/bin/sh" [] "echo hi" = Cmd [] "/bin/sh" ["-c", "echo hi"] ∧
    (NewFactory ⟨none, none, none, "", []⟩).Shell "plan9" "/bin/sh" [] "echo hi"
      = (NewFactory ⟨none, none, none, "", []⟩).Cmd [] "/bin/sh" ["-c", "echo hi"] := by
  have h := shell_os_selection "plan9" "/bin/sh" [] "echo hi"
    (NewFactory ⟨none, none, none, "", []⟩)
  exact ⟨h.2.2.2.1 (by decide) (by decide) (by decide),
    h.2.2.2.2.2.2.2 (by decide) (by decide) (by decide)⟩

/-- C7: on any execution failure, `Output()` returns the empty string with
the underlying error, and `Lines()` propagates that error unchanged while
returning no line slice (`nil`). -/
theorem output_error_empty_and_lines_propagate (b : CmdBuilder) (o : ExecOutcome)
    (e : GoError) (h : (b.Output o).err = some e) :
    (b.Output o).out = "" ∧ b.Lines o = (none, some e) := by
  refine ⟨?_, by simp [CmdBuilder.Lines, h]⟩
  cases hstd : b.cmd.Stdout with
  | none =>
    cases o with
    | createFail msg => simp [CmdBuilder.Output, hstd, execOutput]
    | completed s c =>
      by_cases hc : c = 0 <;>
        simp [CmdBuilder.Output, hstd, execOutput, hc] at h ⊢
  | some w =>
    cases o with
    | createFail msg => simp [CmdBuilder.Output, hstd, execRun]
    | completed s c =>
      by_cases hc : c = 0 <;>
        simp [CmdBuilder.Output, hstd, execRun, hc] at h ⊢

/-- C7 witness: a creation failure makes `Output()` return the empty string
with the error, and `Lines()` forwards exactly that error with a `nil`
slice. -/
theorem output_error_empty_and_lines_propagate_witness :
    ((Cmd [] "nosuch" []).Output (.createFail "enoent")).out = "" ∧
    (Cmd [] "nosuch" []).Lines (.createFail "enoent")
      = (none, some (.creationError "enoent")) :=
  output_error_empty_and_lines_propagate (Cmd [] "nosuch" [])
    (.createFail "enoent") (.creationError "enoent") (by decide)

/-- C8: `Run()` errors exactly on creation failure or non-zero exit (exit 0
gives `nil`, any non-zero exit a non-nil error), while `Start()` errors only
on creation failure and never reports a non-zero exit, since it does not
wait. -/
theorem run_start_error_semantics (b : CmdBuilder) (s msg : String) (c : Nat) :
    b.Run (.completed s 0) = none ∧
    (c ≠ 0 → b.Run (.completed s c) = some (.exitError c)) ∧
    b.Run (.createFail msg) = some (.creationError msg) ∧
    b.Start (.completed s c) = none ∧
    b.Start (.createFail msg) = some (.creationError msg) := by
  refine ⟨rfl, ?_, rfl, rfl, rfl⟩
  intro hc
  simp [CmdBuilder.Run, execRun, hc]

/-- C8 witness: exit status 1 yields a non-nil error from `Run()` while
`Start()` on the same outcome yields `nil`. -/
theorem run_start_error_semantics_witness :
    (Cmd [] "false" []).Run (.completed "" 1) = some (.exitError 1) ∧
    (Cmd [] "false" []).Start (.completed "" 1) = none := by
  have h := run_start_error_semantics (Cmd [] "false" []) "" "x" 1
  exact ⟨h.2.1 (by decide), h.2.2.2.1⟩

/-- C9: a successful `Lines()` never returns an empty slice — splitting
yields at least one element — and a command whose raw output is empty or
all-whitespace yields exactly the one-element slice containing the empty
string. -/
theorem lines_nonempty_and_whitespace_only (b : CmdBuilder) (o : ExecOutcome)
    (l : List String) (s : String) :
    (b.Lines o = (some l, none) → l ≠ []) ∧
    ((∀ ch ∈ s.toList, goIsSpace ch) → b.Lines (.completed s 0) = (some [""], none)) := by
  constructor
  · intro h
    unfold CmdBuilder.Lines at h
    cases herr : (b.Output o).err with
    | some e => simp [herr] at h
    | none =>
      simp [herr] at h
      rw [← h]
      exact goSplitLines_ne_nil _
  · intro hs
    have ht := goTrimSpace_of_allspace s hs
    have ho := output_completed_zero b s
    simp [CmdBuilder.Lines, ho, ht, goSplitLines_empty]

/-- C9 witness: whitespace-only raw output `" \t\n"` yields exactly `[""]`,
which is non-empty. -/
theorem lines_nonempty_and_whitespace_only_witness :
    ([""] ≠ ([] : List String)) ∧
    (Cmd [] "c2" []).Lines (.completed " \t\n" 0) = (some [""], none) := by
  have h := lines_nonempty_and_whitespace_only (Cmd [] "c2" [])
    (.completed " \t\n" 0) [""] " \t\n"
  exact ⟨h.1 (by decide), h.2 (by decide)⟩

/-- C10: producing a builder through the factory reads but never modifies the
factory's options; every produced builder owns an environment list seeded
from the calling process's environment with the factory entries appended;
and configuring one builder cell leaves the factory and every other builder
cell unchanged. -/
theorem factory_frame_independence (w : World) (i j : Nat) (op : BuilderOp)
    (environ : List String) (name : String) (args : List String)
    (opts : CmdFactoryOptions) :
    (w.createCmd environ name args).factory = w.factory ∧
    (w.configure i op).factory = w.factory ∧
    (j ≠ i → (w.configure i op).builders.get? j = w.builders.get? j) ∧
    ((NewFactory opts).Cmd environ name args).cmd.Env = environ ++ opts.Env := by
  refine ⟨rfl, rfl, ?_, ?_⟩
  · intro h
    simpa [World.configure] using modifyAt_get_ne (fun c => applyOp c op) i j w.builders h
  · obtain ⟨si, so, se, d, e⟩ := opts
    cases si <;> cases so <;> cases se <;> cases e <;> by_cases hd : d = "" <;>
      simp [CmdFactory.Cmd, NewFactory, freeCmd, Cmd, hd]

/-- C10 witness: with two builder cells produced from one factory,
configuring cell 1 leaves cell 0 untouched. -/
theorem factory_frame_independence_witness :
    ((World.mk (NewFactory ⟨none, none, none, "", []⟩)
        [(Cmd [] "a" []).cmd, (Cmd [] "b" []).cmd]).configure 1
        (.envOp ["X=1"])).builders.get? 0
      = (World.mk (NewFactory ⟨none, none, none, "", []⟩)
        [(Cmd [] "a" []).cmd, (Cmd [] "b" []).cmd]).builders.get? 0 :=
  (factory_frame_independence
    (World.mk (NewFactory ⟨none, none, none, "", []⟩)
      [(Cmd [] "a" []).cmd, (Cmd [] "b" []).cmd])
    1 0 (.envOp ["X=1"]) [] "a" [] ⟨none, none, none, "", []⟩).2.2.1 (by decide)
